import Mathlib

/-!
Shallow embedding of the Heureka catalog crawler
(src/crawler_apify_heureka.py) for checking the natural-language
specification.  The embedding covers the request handler, the page
classifier, the category link pipeline (frontier gate), the product
extraction pipeline, and the shared product counter, translated
directly from the Python/JavaScript source.  Machine-level concerns
(browser rendering, network, proxies) stay outside the model; the
handler is a function from the fetched page data to crawl effects
(pushed records, enqueued URLs, log lines).
-/

/-! ## String utilities

Models of the string operations used by the source: Python `in`
(substring test), JavaScript `String.prototype.includes`,
`str.startswith`-style prefix checks, and `str.split`.
-/

/-- Substring test: models Python `sub in s` and JavaScript
`s.includes(sub)`.  Decided on the underlying character lists. -/
def strContains (s sub : String) : Bool :=
  decide (sub.data <:+: s.data)

/-- Split a character list on a separator character, keeping empty
pieces: models Python `s.split(c)` for a one-character separator
(so `"".split(c) = [""]`). -/
def splitChar (c : Char) : List Char → List (List Char)
  | [] => [[]]
  | x :: xs =>
    let r := splitChar c xs
    if x == c then [] :: r
    else
      match r with
      | [] => [[x]]
      | h :: t => (x :: h) :: t

/-- Last piece of a slash-separated string: models the source
expression `value.split('/')[-1]` (line 235). -/
def lastSegment (s : String) : String :=
  String.mk ((splitChar '/' s.data).getLastD [])

/-! ## URL resolution

The source resolves each harvested href against the page URL with the
browser API `new URL(href, baseUrl).href` (line 144).  The model below
covers the cases arising for well-formed http/https references without
query strings, fragments or dot-segments: an absolute reference is kept
as is, a root-relative reference is joined to the origin of the base,
and any other reference replaces the last path segment of the base.
-/

/-- Characters of a URL after its http/https scheme prefix. -/
def afterScheme (l : List Char) : List Char :=
  if "https://".data.isPrefixOf l then l.drop 8
  else if "http://".data.isPrefixOf l then l.drop 7
  else l

/-- Host part of a URL: the characters between the scheme and the
first slash of the path. -/
def hostOf (url : String) : String :=
  String.mk ((afterScheme url.data).takeWhile (fun c => c != '/'))

/-- Scheme and host of a URL, e.g. "https://www.heureka.cz". -/
def originOf (url : String) : String :=
  if "https://".data.isPrefixOf url.data then "https://" ++ hostOf url
  else if "http://".data.isPrefixOf url.data then "http://" ++ hostOf url
  else url

/-- The base URL up to and including the last slash of its path
(at least the origin followed by a slash). -/
def dirOf (url : String) : String :=
  let l := url.data
  let rest := afterScheme l
  let scheme := l.take (l.length - rest.length)
  let host := rest.takeWhile (fun c => c != '/')
  let path := rest.drop host.length
  String.mk (scheme ++ host ++ List.intercalate ['/'] ((splitChar '/' path).dropLast) ++ ['/'])

/-- Is the reference already absolute (http or https)? -/
def isAbsoluteUrl (s : String) : Bool :=
  "http://".data.isPrefixOf s.data || "https://".data.isPrefixOf s.data

/-- Resolution of a candidate href against the page URL: models
`new URL(href, baseUrl).href` at line 144 of the source. -/
def resolveUrl (href base : String) : String :=
  if isAbsoluteUrl href then href
  else if "/".data.isPrefixOf href.data then originOf base ++ href
  else dirOf base ++ href

/-! ## Frontier gate: allow and deny filters -/

/-- The utility/non-product domains ignored by the category handler
(source lines 128 to 134). -/
def IGNORE_DOMAINS : List String :=
  ["ucet.heureka.cz", "checkout.heureka.cz", "sluzby.heureka.cz",
   "napoveda.heureka.cz", "obchody.heureka.cz"]

/-- The allow filter applied inside the in-page JavaScript:
`url.includes('.heureka.cz')` (line 145) and, for pagination,
`'.heureka.cz' in next_url` (line 178).  Note that the test runs on
the whole URL string, not on its host. -/
def allowMatch (url : String) : Bool :=
  strContains url ".heureka.cz"

/-- The deny filter: `any(domain in url for domain in IGNORE_DOMAINS)`
(lines 154 to 157 and line 179). -/
def denyMatch (url : String) : Bool :=
  IGNORE_DOMAINS.any (fun d => strContains url d)

/-- Product links surviving the in-page JavaScript harvest (lines 137
to 151): each href is resolved against the page URL and kept when the
resulting URL passes the allow filter. -/
def resolvedLinks (base : String) (hrefs : List String) : List String :=
  hrefs.filterMap (fun href =>
    let url := resolveUrl href base
    if allowMatch url then some url else none)

/-- Product links surviving the Python deny filter (lines 154 to 157). -/
def filteredLinks (base : String) (hrefs : List String) : List String :=
  (resolvedLinks base hrefs).filter (fun u => !denyMatch u)

/-- Enqueue decision for the pagination link (lines 178 to 185): the
browser supplies an absolute href, kept when it passes the allow
filter and no ignored domain occurs in it. -/
def paginationEnqueue (nextHref : Option String) : List (String × String) :=
  match nextHref with
  | some u => if allowMatch u && !denyMatch u then [(u, "CATEGORY")] else []
  | none => []

/-! ## Page classifier -/

/-- Page classification (source lines 99 to 107): the label from
`request.user_data` wins when it is not the DETECT sentinel; under
DETECT the page is a product when either DOM signal
(`.c-product-price__price` or `.c-offer-list`) is present. -/
def classify (label : String) (hasPriceBlock hasOfferList : Bool) : String :=
  if label == "DETECT" then
    if hasPriceBlock || hasOfferList then "PRODUCT" else "CATEGORY"
  else label

/-! ## Quota check -/

/-- The product-limit admission test `max_products and product_count >=
max_products` (lines 79 and 189); a zero limit is falsy in Python, so
no limit is enforced then. -/
def limitReached (maxP count : Nat) : Bool :=
  maxP != 0 && maxP ≤ count

/-! ## JSON values

Model of the values produced by `json.loads` on the JSON-LD block of a
product page.  Numbers are modelled as integers (the decimal notation
of Python floats is not reproduced).  Python expressions that can
raise inside the try block of lines 208 to 246 (attribute access on a
non-dictionary, slicing or iterating a non-sequence) are modelled as
Except values by the extraction functions further below.
-/

/-- JSON value as produced by `json.loads`. -/
inductive Json where
  | null : Json
  | bool : Bool → Json
  | num : Int → Json
  | str : String → Json
  | arr : List Json → Json
  | obj : List (String × Json) → Json

/-- Dictionary access `d.get(k)` on a value the source has already
guarded to be a dictionary (by an isinstance test or a `{}` default);
the raising Python paths, where `.get` is reached on a non-dictionary,
are modelled explicitly by the Except-valued extraction functions
below, never by this function. -/
def Json.lookup : Json → String → Option Json
  | .obj kvs, k => List.lookup k kvs
  | _, _ => none

/-- Python truthiness of a JSON value, as used by the source in
`if price:` (line 237). -/
def Json.truthy : Json → Bool
  | .null => false
  | .bool b => b
  | .num n => n != 0
  | .str s => !s.isEmpty
  | .arr l => !l.isEmpty
  | .obj l => !l.isEmpty

/-- Python truthiness of an optional JSON value (a missing key gives
`None`, which is falsy). -/
def truthyOpt : Option Json → Bool
  | none => false
  | some j => j.truthy

/-- Python `str(value)` on scalar JSON values, used for `str(price)`
at line 240.  The representations of containers are not reproduced. -/
def pyStr : Json → String
  | .str s => s
  | .num n => toString n
  | .bool b => if b then "True" else "False"
  | .null => "None"
  | .arr _ => "<list>"
  | .obj _ => "<dict>"

/-! ## Extraction pipeline (handle_product, lines 187 to 269)

The whole structured-data strategy runs inside one try/except (lines
208 to 246): any exception raised while traversing the parsed JSON-LD
document is caught at line 245, which logs a warning and keeps
whatever fields were assigned before the raise.  The functions below
therefore thread the record state together with a Bool saying whether
the except fired, and the helpers modelling Python expressions that
can raise return Except values.
-/

/-- One store offer as appended to `store_prices` (lines 238 to 243).
The store field carries whatever JSON value `seller.get('name')`
returned, or none when the seller had no name. -/
structure StoreOffer where
  store : Option Json
  price : String
  currency : String
  availability : String

/-- The record pushed to the dataset (lines 254 to 265).  Field names
follow the keys of the pushed dictionary; the crawl timestamp
(`datetime.now`) is outside the model. -/
structure ProductRecord where
  url : String
  title : Json
  brand : Json
  rating : Option Json
  review_count : Option Json
  lowest_price : Json
  highest_price : Json
  currency : String
  store_prices : List StoreOffer

/-- The field defaults set before extraction (lines 197 to 203 and
line 262). -/
def defaultRecord (url : String) : ProductRecord :=
  { url := url
    title := .str "Unknown"
    brand := .str "Unknown"
    rating := none
    review_count := none
    lowest_price := .str "N/A"
    highest_price := .str "N/A"
    currency := "CZK"
    store_prices := [] }

/-- The availability expression `offer.get('availability', '').split('/')[-1]`
(line 235): the last slash-segment of a string value, the empty string
when the key is absent (the default empty string splits to one empty
piece), and a raise when the key holds a non-string value, on which
`.split` fails with an AttributeError that aborts the try block. -/
def availOf (kvs : List (String × Json)) : Except Unit String :=
  match List.lookup "availability" kvs with
  | some (.str s) => .ok (lastSegment s)
  | some _ => .error ()
  | none => .ok ""

/-- Treatment of a single entry of the offer list (lines 231 to 243):
a non-dictionary entry is skipped without touching its fields; for a
dictionary entry the seller defaults through `offer.get('seller', {})`
and the store is the fixed string "Unknown" only when a present seller
value is not a dictionary (a missing name gives none); the
availability is computed before the price test and can raise; the
entry is appended exactly when its price is truthy. -/
def processOffer (offer : Json) : Except Unit (Option StoreOffer) :=
  match offer with
  | .obj kvs =>
    let seller := (List.lookup "seller" kvs).getD (.obj [])
    let store_name : Option Json :=
      match seller with
      | .obj skvs => List.lookup "name" skvs
      | _ => some (.str "Unknown")
    let price := List.lookup "price" kvs
    match availOf kvs with
    | .ok availability =>
      .ok (if truthyOpt price then
             some { store := store_name
                    price := pyStr (price.getD .null)
                    currency := "CZK"
                    availability := availability }
           else none)
    | .error e => .error e
  | _ => .ok none

/-- The `for offer in offer_list[:10]` loop (lines 230 to 243) over
the already-sliced list, threading the record: a raise inside one
iteration aborts the loop and the whole try block, keeping the offers
appended in earlier iterations and dropping the raising entry and all
later ones. -/
def offerLoop (d : ProductRecord) : List Json → ProductRecord × Bool
  | [] => (d, false)
  | offer :: rest =>
    match processOffer offer with
    | .error _ => (d, true)
    | .ok none => offerLoop d rest
    | .ok (some s) =>
      offerLoop { d with store_prices := d.store_prices ++ [s] } rest

/-- Does the treatment of this offer entry complete without
raising? -/
def offerNoRaise (o : Json) : Bool :=
  match processOffer o with
  | .ok _ => true
  | .error _ => false

/-- The offer kept for an entry whose treatment does not raise. -/
def offerKept (o : Json) : Option StoreOffer :=
  match processOffer o with
  | .ok r => r
  | .error _ => none

/-- Python slicing `offer_list[:10]` (line 230): slicing works on
lists and on strings (a string slices to its first characters, each
later iterated as a one-character string that the loop skips), and
raises a TypeError on any other value, aborting the try block. -/
def sliceTen : Json → Except Unit (List Json)
  | .arr l => .ok (l.take 10)
  | .str s => .ok ((s.data.take 10).map (fun c => Json.str (String.mk [c])))
  | _ => .error ()

/-- Test for the product entity: `item.get('@type') == 'Product'`
(line 213), on an item already known to be a dictionary. -/
def isProductItem (kvs : List (String × Json)) : Bool :=
  match List.lookup "@type" kvs with
  | some (.str s) => s == "Product"
  | _ => false

/-- The graph scan with its `break` (lines 212 to 213): the first
product entity wins; `item.get('@type')` raises an AttributeError on a
non-dictionary item, aborting the try block before any field was
assigned. -/
def findProduct : List Json → Except Unit (Option (List (String × Json)))
  | [] => .ok none
  | item :: rest =>
    match item with
    | .obj kvs =>
      if isProductItem kvs then .ok (some kvs)
      else findProduct rest
    | _ => .error ()

/-- Iteration `for item in data_json['@graph']` (line 212): a list
iterates its items, a string its characters (as one-character
strings), a dictionary its keys; any other value raises a TypeError,
aborting the try block. -/
def graphItems : Json → Except Unit (List Json)
  | .arr l => .ok l
  | .str s => .ok (s.data.map (fun c => Json.str (String.mk [c])))
  | .obj kvs => .ok (kvs.map (fun kv => Json.str kv.1))
  | _ => .error ()

/-- Locating the product entity in the parsed JSON-LD document
(lines 211 to 213): a non-dictionary document or one without a
`@graph` key skips the whole block without raising; otherwise the
graph is iterated and scanned, either of which can raise. -/
def productItemOf (jld : Json) : Except Unit (Option (List (String × Json))) :=
  match jld with
  | .obj kvs =>
    match List.lookup "@graph" kvs with
    | some g =>
      match graphItems g with
      | .ok items => findProduct items
      | .error e => .error e
    | none => .ok none
  | _ => .ok none

/-- The offer-list slice and loop (lines 229 to 243), reached once the
offers value is known to be a dictionary: slicing a non-list,
non-string offers list raises after the prices were assigned. -/
def offerListPart (d3 : ProductRecord) (okvs : List (String × Json)) :
    ProductRecord × Bool :=
  match sliceTen ((List.lookup "offers" okvs).getD (.arr [])) with
  | .ok l => offerLoop d3 l
  | .error _ => (d3, true)

/-- The price block guarded by `isinstance(offers, dict)` (lines 224
to 243): a non-dictionary offers value skips the block without
raising (the prices keep their defaults and no offer is read). -/
def offersPart (d2 : ProductRecord) (ikvs : List (String × Json)) :
    ProductRecord × Bool :=
  match (List.lookup "offers" ikvs).getD (.obj []) with
  | .obj okvs =>
    offerListPart
      { d2 with
        lowest_price := (List.lookup "lowPrice" okvs).getD d2.lowest_price
        highest_price := (List.lookup "highPrice" okvs).getD d2.highest_price }
      okvs
  | _ => (d2, false)

/-- The rating block (lines 218 to 220): `agg_rating.get('ratingValue')`
raises an AttributeError when a present aggregateRating value is not a
dictionary, aborting the try block while keeping the title and brand
already assigned. -/
def aggPart (d1 : ProductRecord) (ikvs : List (String × Json)) :
    ProductRecord × Bool :=
  match (List.lookup "aggregateRating" ikvs).getD (.obj []) with
  | .obj akvs =>
    offersPart
      { d1 with
        rating := List.lookup "ratingValue" akvs
        review_count := List.lookup "reviewCount" akvs }
      ikvs
  | _ => (d1, true)

/-- The body run for the first product entity (lines 214 to 243):
name and brand are read first (they default to the current values),
then the rating block, then the price and offer block. -/
def processItem (d : ProductRecord) (ikvs : List (String × Json)) :
    ProductRecord × Bool :=
  aggPart
    { d with
      title := (List.lookup "name" ikvs).getD d.title
      brand := (List.lookup "brand" ikvs).getD d.brand }
    ikvs

/-- The whole try block over a parsed document (lines 209 to 244):
yields the record at exit and whether an exception was caught at
line 245. -/
def tryStructured (d : ProductRecord) (jld : Json) : ProductRecord × Bool :=
  match productItemOf jld with
  | .ok (some ikvs) => processItem d ikvs
  | .ok none => (d, false)
  | .error _ => (d, true)

/-- Python test `title == "Unknown"` guarding the DOM fallback
(line 249); false for any non-string title value. -/
def isUnknownTitle : Json → Bool
  | .str s => s == "Unknown"
  | _ => false

/-- Data the extraction reads from the parsed page: the outcome of
locating and parsing the JSON-LD script tag (none: no tag found;
some none: `json.loads` raised; some (some j): parsed document j), and
the stripped text of the first first-level heading matched by
`soup.select_one('h1.c-product-info__name, h1')`, when any. -/
structure ProductPage where
  jsonLd : Option (Option Json)
  h1 : Option String

/-- The DOM fallback (lines 248 to 252): when the title still equals
"Unknown", replace it by the text of the first first-level heading if
one exists. -/
def applyFallback (pg : ProductPage) (r : ProductRecord) : ProductRecord :=
  if isUnknownTitle r.title then
    match pg.h1 with
    | some t => { r with title := .str t }
    | none => r
  else r

/-- The structured-data strategy (lines 205 to 246): nothing happens
without a script tag; a `json.loads` raise leaves the defaults and
flags the caught exception; otherwise the try block runs on the
parsed document.  The Bool records whether the except at line 245
fired (and logged the warning). -/
def extractStructured (url : String) (pg : ProductPage) : ProductRecord × Bool :=
  match pg.jsonLd with
  | none => (defaultRecord url, false)
  | some none => (defaultRecord url, true)
  | some (some jld) => tryStructured (defaultRecord url) jld

/-- The full extraction of one product record (lines 196 to 265):
structured-data strategy first (with whatever fields it assigned
before a caught raise), then the DOM fallback for the title. -/
def extractProduct (url : String) (pg : ProductPage) : ProductRecord :=
  applyFallback pg (extractStructured url pg).1

/-! ## Handler effects and dispatch (request_handler, lines 75 to 120) -/

/-- Externally observable effects of one handler invocation: records
pushed to the dataset, URLs handed to the enqueue operation together
with their label, and log lines (modelled up to their fixed prefix,
without interpolated exception text). -/
structure Effects where
  pushed : List ProductRecord
  enqueued : List (String × String)
  logs : List String

/-- Data the handler reads from the rendered page: the page title, the
two DOM detection signals (lines 103 to 106), the href attributes of
the product-link anchors (line 139, nulls already dropped), the
absolute href of the next-page anchor when one exists (lines 173 to
176), and the parsed-page data used by product extraction. -/
structure FetchedPage where
  title : String
  hasPriceBlock : Bool
  hasOfferList : Bool
  productLinks : List String
  nextHref : Option String
  product : ProductPage

/-- A crawl request: its URL and the optional label stored in
`user_data` (absent for start URLs). -/
structure CrawlRequest where
  url : String
  userLabel : Option String

/-- Effects of the category handler (handle_category_playwright,
lines 122 to 185): the filtered product links are enqueued with label
PRODUCT (the batches of 20 concatenate back to the same sequence),
then the pagination link with label CATEGORY when admitted. -/
def handleCategoryEffects (base : String) (pg : FetchedPage) : Effects :=
  { pushed := []
    enqueued := (filteredLinks base pg.productLinks).map (fun u => (u, "PRODUCT"))
      ++ paginationEnqueue pg.nextHref
    logs := ["Scraping Category: " ++ base, "Found product links"]
      ++ (paginationEnqueue pg.nextHref).map (fun p => "Found pagination link: " ++ p.1) }

/-- Effects of the product handler (handle_product, lines 187 to 269)
together with the updated product counter: a second admission check
against the product limit, extraction (with the warning of line 246
when the except caught a raise, be it from `json.loads` or from the
traversal), one record pushed, then the counter incremented. -/
def handleProduct (maxP count : Nat) (url : String) (pg : ProductPage) :
    Nat × Effects :=
  if limitReached maxP count then
    (count, { pushed := [], enqueued := [], logs := [] })
  else
    (count + 1,
      { pushed := [extractProduct url pg]
        enqueued := []
        logs := ["Scraping Product: " ++ url]
          ++ (if (extractStructured url pg).2 then ["Failed to parse JSON-LD"] else [])
          ++ ["Products fetched"] })

/-- One sequential invocation of the request handler (lines 75 to
120): product-limit admission first, then the blocked-page check on
the title (line 92, case-sensitive substring match), then
classification and dispatch on the label string. -/
def requestHandler (maxP count : Nat) (req : CrawlRequest) (pg : FetchedPage) :
    Nat × Effects :=
  if limitReached maxP count then
    (count, { pushed := [], enqueued := []
              logs := ["Reached max products limit: " ++ req.url] })
  else if strContains pg.title "Just a moment" || strContains pg.title "Access denied" then
    (count, { pushed := [], enqueued := []
              logs := ["Processing " ++ req.url, "Blocked by Cloudflare: " ++ req.url] })
  else
    let label := classify ((req.userLabel).getD "DETECT") pg.hasPriceBlock pg.hasOfferList
    if label == "CATEGORY" then
      let eff := handleCategoryEffects req.url pg
      (count, { eff with logs := ["Processing " ++ req.url] ++ eff.logs })
    else if label == "PRODUCT" then
      let pr := handleProduct maxP count req.url pg.product
      (pr.1, { pr.2 with logs := ["Processing " ++ req.url] ++ pr.2.logs })
    else
      (count, { pushed := [], enqueued := [], logs := ["Processing " ++ req.url] })

/-! ## Concurrent product handlers

The crawl engine runs several handler invocations concurrently on one
asyncio event loop; code between two awaits runs without interleaving,
and the shared counter `product_count` is read and written by plain
Python statements.  With respect to that counter, one product-handler
invocation decomposes into three atomic segments separated by awaits:
the admission check at line 79 (followed by page waits), the admission
check at line 189 followed by extraction and the initiation of the
awaited `Actor.push_data` call at line 267 (the record reaches the
sink during this await), and the increment `product_count += 1` at
line 268.  A run is a schedule interleaving these segments.
-/

/-- Progress of one product-handler invocation through its atomic
segments. -/
inductive HPhase where
  | atEntry : HPhase
  | atSecondCheck : HPhase
  | pushedRecord : HPhase
  | finished : HPhase

/-- One atomic segment of a product handler: given the shared counter,
it yields the next phase, the new counter value, and how many records
were pushed during the segment. -/
def stepPhase (maxP count : Nat) : HPhase → HPhase × Nat × Nat
  | .atEntry =>
    if limitReached maxP count then (.finished, count, 0)
    else (.atSecondCheck, count, 0)
  | .atSecondCheck =>
    if limitReached maxP count then (.finished, count, 0)
    else (.pushedRecord, count, 1)
  | .pushedRecord => (.finished, count + 1, 0)
  | .finished => (.finished, count, 0)

/-- State of a concurrent run: the shared counter, the number of
records pushed so far, and the phase of every handler invocation. -/
structure RunState where
  count : Nat
  emitted : Nat
  phases : List HPhase

/-- Execute the next atomic segment of handler i. -/
def stepRun (maxP : Nat) (st : RunState) (i : Nat) : RunState :=
  match st.phases[i]? with
  | some ph =>
    match stepPhase maxP st.count ph with
    | (ph2, c2, e) =>
      { count := c2
        emitted := st.emitted + e
        phases := st.phases.set i ph2 }
  | none => st

/-- Run a schedule: the event loop picks, at each step, which handler
invocation executes its next atomic segment. -/
def runSchedule (maxP : Nat) (st : RunState) : List Nat → RunState
  | [] => st
  | i :: rest => runSchedule maxP (stepRun maxP st i) rest

/-- Initial state of a run with n concurrent product-handler
invocations and counter zero. -/
def initRun (n : Nat) : RunState :=
  { count := 0, emitted := 0, phases := List.replicate n .atEntry }

/-! ## Supporting lemmas -/

/-- Appending on the left preserves substring containment. -/
theorem strContains_append_left (a b sub : String)
    (h : strContains b sub = true) : strContains (a ++ b) sub = true := by
  have hd : (a ++ b).data = a.data ++ b.data := by
    cases a; cases b; rfl
  unfold strContains at h ⊢
  rw [decide_eq_true_iff] at h ⊢
  rw [hd]
  exact h.trans (List.suffix_append a.data b.data).isInfix

/-- URL resolution preserves substring containment of the candidate. -/
theorem strContains_resolveUrl (href base sub : String)
    (h : strContains href sub = true) :
    strContains (resolveUrl href base) sub = true := by
  unfold resolveUrl
  split
  · exact h
  · split
    · exact strContains_append_left (originOf base) href sub h
    · exact strContains_append_left (dirOf base) href sub h

/-- URL resolution preserves a deny-filter match of the candidate. -/
theorem denyMatch_resolveUrl (href base : String)
    (h : denyMatch href = true) : denyMatch (resolveUrl href base) = true := by
  unfold denyMatch at h ⊢
  rw [List.any_eq_true] at h ⊢
  obtain ⟨d, hd, hc⟩ := h
  exact ⟨d, hd, strContains_resolveUrl href base d hc⟩

/-- Every product link surviving both category-page filters passes the
allow filter and fails the deny filter. -/
theorem mem_filteredLinks (base : String) (hrefs : List String) (u : String)
    (h : u ∈ filteredLinks base hrefs) :
    allowMatch u = true ∧ denyMatch u = false := by
  unfold filteredLinks at h
  rw [List.mem_filter] at h
  obtain ⟨hres, hdeny⟩ := h
  refine ⟨?_, by simpa using hdeny⟩
  unfold resolvedLinks at hres
  rw [List.mem_filterMap] at hres
  obtain ⟨href, _, heq⟩ := hres
  dsimp only at heq
  split at heq
  · rename_i hc
    cases heq
    exact hc
  · cases heq

/-- Every enqueued pagination link passes the allow filter and fails
the deny filter. -/
theorem mem_paginationEnqueue (nh : Option String) (p : String × String)
    (h : p ∈ paginationEnqueue nh) :
    allowMatch p.1 = true ∧ denyMatch p.1 = false := by
  cases nh with
  | none => simp [paginationEnqueue] at h
  | some u =>
    simp only [paginationEnqueue] at h
    split at h
    · rename_i hc
      rw [List.mem_singleton] at h
      subst h
      rw [Bool.and_eq_true] at hc
      exact ⟨hc.1, by simpa using hc.2⟩
    · cases h

/-- Every URL enqueued by the category handler passes the allow filter
and fails the deny filter. -/
theorem mem_category_enqueued (base : String) (pg : FetchedPage)
    (p : String × String)
    (h : p ∈ (handleCategoryEffects base pg).enqueued) :
    allowMatch p.1 = true ∧ denyMatch p.1 = false := by
  unfold handleCategoryEffects at h
  dsimp only at h
  rw [List.mem_append] at h
  cases h with
  | inl h =>
    rw [List.mem_map] at h
    obtain ⟨u, hu, rfl⟩ := h
    exact mem_filteredLinks base pg.productLinks u hu
  | inr h => exact mem_paginationEnqueue pg.nextHref p h

/-- Every kept store offer carries the fixed currency "CZK". -/
theorem processOffer_currency (o : Json) (s : StoreOffer)
    (h : processOffer o = Except.ok (some s)) : s.currency = "CZK" := by
  cases o with
  | obj kvs =>
    simp only [processOffer] at h
    cases ha : availOf kvs with
    | ok a =>
      rw [ha] at h
      dsimp only at h
      split at h
      · cases h
        rfl
      · cases h
    | error e =>
      rw [ha] at h
      cases h
  | null => cases h
  | bool b => cases h
  | num n => cases h
  | str t => cases h
  | arr l => cases h

/-- The offer loop never touches the currency field. -/
theorem offerLoop_currency (d : ProductRecord) (l : List Json) :
    (offerLoop d l).1.currency = d.currency := by
  induction l generalizing d with
  | nil => rfl
  | cons o rest ih =>
    unfold offerLoop
    cases hp : processOffer o with
    | error e => rfl
    | ok r =>
      cases r with
      | none => exact ih d
      | some s => exact ih _

/-- Every offer present after the loop either was appended by it
(with the fixed currency) or was already in the incoming record. -/
theorem offerLoop_store (d : ProductRecord) (l : List Json) :
    ∀ s ∈ (offerLoop d l).1.store_prices,
      s.currency = "CZK" ∨ s ∈ d.store_prices := by
  induction l generalizing d with
  | nil => intro s hs; exact Or.inr hs
  | cons o rest ih =>
    intro s hs
    unfold offerLoop at hs
    cases hp : processOffer o with
    | error e =>
      rw [hp] at hs
      exact Or.inr hs
    | ok r =>
      rw [hp] at hs
      cases r with
      | none => exact ih d s hs
      | some s0 =>
        rcases ih _ s hs with hc | hm
        · exact Or.inl hc
        · have hm2 : s ∈ d.store_prices ++ [s0] := hm
          rw [List.mem_append] at hm2
          rcases hm2 with hm2 | hm2
          · exact Or.inr hm2
          · rw [List.mem_singleton] at hm2
            subst hm2
            exact Or.inl (processOffer_currency o s hp)

/-- When no entry of the list raises, the loop terminates normally and
appends, in source order, exactly the kept offers of the entries. -/
theorem offerLoop_clean_store (d : ProductRecord) (l : List Json)
    (h : l.all offerNoRaise = true) :
    (offerLoop d l).1.store_prices
      = d.store_prices ++ l.filterMap offerKept := by
  induction l generalizing d with
  | nil => simp [offerLoop]
  | cons o rest ih =>
    rw [List.all_cons, Bool.and_eq_true] at h
    unfold offerLoop
    cases hp : processOffer o with
    | error e =>
      exfalso
      have hn : offerNoRaise o = false := by
        unfold offerNoRaise
        rw [hp]
      rw [hn] at h
      exact Bool.noConfusion h.1
    | ok r =>
      have hk : offerKept o = r := by
        unfold offerKept
        rw [hp]
      cases r with
      | none =>
        rw [ih d h.2, List.filterMap_cons, hk]
      | some s0 =>
        rw [ih _ h.2, List.filterMap_cons, hk]
        have hd : ({ d with store_prices := d.store_prices ++ [s0] } :
            ProductRecord).store_prices = d.store_prices ++ [s0] := rfl
        rw [hd, List.append_assoc]
        rfl

/-- The DOM fallback never touches the currency or the offers. -/
theorem applyFallback_currency_store (pg : ProductPage) (r : ProductRecord) :
    (applyFallback pg r).currency = r.currency
    ∧ (applyFallback pg r).store_prices = r.store_prices := by
  unfold applyFallback
  split
  · cases pg.h1 <;> exact ⟨rfl, rfl⟩
  · exact ⟨rfl, rfl⟩

/-- The offer-list part never touches the currency field. -/
theorem offerListPart_currency (d : ProductRecord)
    (okvs : List (String × Json)) :
    (offerListPart d okvs).1.currency = d.currency := by
  unfold offerListPart
  split
  · exact offerLoop_currency d _
  · rfl

/-- The offers part never touches the currency field. -/
theorem offersPart_currency (d : ProductRecord)
    (ikvs : List (String × Json)) :
    (offersPart d ikvs).1.currency = d.currency := by
  unfold offersPart
  split
  · rw [offerListPart_currency]
  · rfl

/-- The rating part never touches the currency field. -/
theorem aggPart_currency (d : ProductRecord) (ikvs : List (String × Json)) :
    (aggPart d ikvs).1.currency = d.currency := by
  unfold aggPart
  split
  · rw [offersPart_currency]
  · rfl

/-- The product-entity body never touches the currency field. -/
theorem processItem_currency (d : ProductRecord)
    (ikvs : List (String × Json)) :
    (processItem d ikvs).1.currency = d.currency := by
  unfold processItem
  rw [aggPart_currency]

/-- The try block never touches the currency field. -/
theorem tryStructured_currency (d : ProductRecord) (jld : Json) :
    (tryStructured d jld).1.currency = d.currency := by
  unfold tryStructured
  split
  · rw [processItem_currency]
  · rfl
  · rfl

/-- The structured-data strategy always leaves the fixed currency. -/
theorem extractStructured_currency (url : String) (pg : ProductPage) :
    (extractStructured url pg).1.currency = "CZK" := by
  unfold extractStructured
  split
  · rfl
  · rfl
  · rw [tryStructured_currency]
    rfl

/-- Offers surviving the offer-list part carry the fixed currency or
come from the incoming record. -/
theorem offerListPart_store (d : ProductRecord) (okvs : List (String × Json)) :
    ∀ s ∈ (offerListPart d okvs).1.store_prices,
      s.currency = "CZK" ∨ s ∈ d.store_prices := by
  unfold offerListPart
  split
  · exact offerLoop_store d _
  · intro s hs
    exact Or.inr hs

/-- Offers surviving the offers part carry the fixed currency or come
from the incoming record. -/
theorem offersPart_store (d : ProductRecord) (ikvs : List (String × Json)) :
    ∀ s ∈ (offersPart d ikvs).1.store_prices,
      s.currency = "CZK" ∨ s ∈ d.store_prices := by
  unfold offersPart
  split
  · intro s hs
    have hr := offerListPart_store _ _ s hs
    rcases hr with hc | hm
    · exact Or.inl hc
    · exact Or.inr hm
  · intro s hs
    exact Or.inr hs

/-- Offers surviving the rating part carry the fixed currency or come
from the incoming record. -/
theorem aggPart_store (d : ProductRecord) (ikvs : List (String × Json)) :
    ∀ s ∈ (aggPart d ikvs).1.store_prices,
      s.currency = "CZK" ∨ s ∈ d.store_prices := by
  unfold aggPart
  split
  · intro s hs
    have hr := offersPart_store _ _ s hs
    rcases hr with hc | hm
    · exact Or.inl hc
    · exact Or.inr hm
  · intro s hs
    exact Or.inr hs

/-- Offers surviving the product-entity body carry the fixed currency
or come from the incoming record. -/
theorem processItem_store (d : ProductRecord) (ikvs : List (String × Json)) :
    ∀ s ∈ (processItem d ikvs).1.store_prices,
      s.currency = "CZK" ∨ s ∈ d.store_prices := by
  unfold processItem
  intro s hs
  have hr := aggPart_store _ _ s hs
  rcases hr with hc | hm
  · exact Or.inl hc
  · exact Or.inr hm

/-- Offers surviving the try block carry the fixed currency or come
from the incoming record. -/
theorem tryStructured_store (d : ProductRecord) (jld : Json) :
    ∀ s ∈ (tryStructured d jld).1.store_prices,
      s.currency = "CZK" ∨ s ∈ d.store_prices := by
  unfold tryStructured
  split
  · exact processItem_store d _
  · intro s hs
    exact Or.inr hs
  · intro s hs
    exact Or.inr hs

/-- Every offer the structured-data strategy leaves in the record
carries the fixed currency. -/
theorem extractStructured_store (url : String) (pg : ProductPage) :
    ∀ s ∈ (extractStructured url pg).1.store_prices,
      s.currency = "CZK" := by
  unfold extractStructured
  split
  · intro s hs
    cases hs
  · intro s hs
    cases hs
  · intro s hs
    rcases tryStructured_store (defaultRecord _) _ s hs with hc | hc
    · exact hc
    · cases hc

/-! ## Concrete pages used by witnesses and counterexamples -/

/-- A category page carrying one harvested product href whose host is
not a catalog host although its path mentions the catalog domain. -/
def evilHostPage : FetchedPage :=
  { title := "Heureka"
    hasPriceBlock := false
    hasOfferList := false
    productLinks := ["https://evil.com/x.heureka.cz"]
    nextHref := none
    product := { jsonLd := none, h1 := none } }

/-- A category page whose harvested links point into an ignored
utility domain. -/
def utilityLinkPage : FetchedPage :=
  { title := "Heureka"
    hasPriceBlock := false
    hasOfferList := false
    productLinks := ["https://ucet.heureka.cz/login"]
    nextHref := some "https://ucet.heureka.cz/next"
    product := { jsonLd := none, h1 := none } }

/-! ## Claim theorems -/

/-- C3 counterexample: the harvested candidate
"https://evil.com/x.heureka.cz" resolves to itself, its host
"evil.com" does not contain the allowed domain suffix ".heureka.cz",
and yet the category handler enqueues it, because the source filters
on the whole URL string (line 145), not on the host.  This refutes the
claim that such a URL is never enqueued. -/
theorem c3_counterexample :
    resolveUrl "https://evil.com/x.heureka.cz" "https://www.heureka.cz/"
      = "https://evil.com/x.heureka.cz"
    ∧ strContains (hostOf "https://evil.com/x.heureka.cz") ".heureka.cz" = false
    ∧ ("https://evil.com/x.heureka.cz", "PRODUCT")
        ∈ (handleCategoryEffects "https://www.heureka.cz/" evilHostPage).enqueued := by
  refine ⟨by decide, by decide, ?_⟩
  show _ ∈ [("https://evil.com/x.heureka.cz", "PRODUCT")]
  exact List.mem_singleton.mpr rfl

/-- C3 (amended): every URL the category handler enqueues, product
link or pagination link, contains an allowed domain suffix as a
substring of the whole URL; equivalently, a candidate whose resolved
URL nowhere contains an allowed suffix is never enqueued.  The filter
runs on the URL string, not on its host. -/
theorem c3_enqueued_urls_contain_allowed_suffix (base : String) (pg : FetchedPage) :
    ((handleCategoryEffects base pg).enqueued.all (fun p => allowMatch p.1)) = true := by
  rw [List.all_eq_true]
  intro p hp
  exact (mem_category_enqueued base pg p hp).1

/-- C4: a candidate URL in which a configured deny substring occurs is
never enqueued by the category handler, neither as the pagination
candidate itself nor through resolution as a product link, whatever
the rest of the page holds.  This covers the claim for product links
and the pagination link alike. -/
theorem c4_deny_substring_never_enqueued (base : String) (pg : FetchedPage)
    (u lbl : String) (h : denyMatch u = true) :
    (u, lbl) ∉ (handleCategoryEffects base pg).enqueued
    ∧ (resolveUrl u base, lbl) ∉ (handleCategoryEffects base pg).enqueued := by
  constructor
  · intro hmem
    have hd := (mem_category_enqueued base pg (u, lbl) hmem).2
    simp [h] at hd
  · intro hmem
    have hr := denyMatch_resolveUrl u base h
    have hd := (mem_category_enqueued base pg (resolveUrl u base, lbl) hmem).2
    simp [hr] at hd

/-- C4 witness: the utility URL "https://ucet.heureka.cz/login"
matches the deny list, so it is not enqueued from a page that harvested
it, although its domain matches the allow list. -/
theorem c4_deny_witness :
    ("https://ucet.heureka.cz/login", "PRODUCT")
      ∉ (handleCategoryEffects "https://www.heureka.cz/" utilityLinkPage).enqueued
    ∧ (resolveUrl "https://ucet.heureka.cz/login" "https://www.heureka.cz/", "PRODUCT")
      ∉ (handleCategoryEffects "https://www.heureka.cz/" utilityLinkPage).enqueued :=
  c4_deny_substring_never_enqueued "https://www.heureka.cz/" utilityLinkPage
    "https://ucet.heureka.cz/login" "PRODUCT" (by decide)

/-- C5: an explicit CATEGORY or PRODUCT label is returned unchanged
whatever the DOM signals say, and under the DETECT sentinel the page
is classified PRODUCT exactly when the price-block signal or the
offer-list signal is present, CATEGORY when both are absent. -/
theorem c5_classifier_explicit_and_detect (p o : Bool) :
    classify "CATEGORY" p o = "CATEGORY"
    ∧ classify "PRODUCT" p o = "PRODUCT"
    ∧ classify "DETECT" p o = (if p || o then "PRODUCT" else "CATEGORY") := by
  cases p <;> cases o <;> exact ⟨rfl, rfl, rfl⟩

/-- A product page whose JSON-LD offer list holds a single entry with
a price but no seller at all. -/
def noSellerPage : ProductPage :=
  { jsonLd := some (some (Json.obj [("@graph", Json.arr [
      Json.obj [("@type", Json.str "Product"),
        ("offers", Json.obj [
          ("offers", Json.arr [Json.obj [("price", Json.str "199")]])])]])]))
    h1 := none }

/-- C6 counterexample: an offer entry carrying a price but no seller
name at all is still kept by the extraction (with a null store), so
the kept offers are not exactly the entries that have at least a
seller name and a price.  Only a truthy price is required. -/
theorem c6_counterexample :
    (extractProduct "u" noSellerPage).store_prices =
      [{ store := none, price := "199", currency := "CZK", availability := "" }]
    ∧ (Json.obj [("price", Json.str "199")]).lookup "seller" = none :=
  ⟨rfl, rfl⟩

/-- With no JSON-LD script tag the structured-data strategy yields the
defaults and no caught exception. -/
theorem extractStructured_no_tag (url : String) (pg : ProductPage)
    (h : pg.jsonLd = none) :
    extractStructured url pg = (defaultRecord url, false) := by
  unfold extractStructured
  rw [h]

/-- With an unparsable JSON-LD block the structured-data strategy
yields the defaults and a caught exception. -/
theorem extractStructured_parse_failed (url : String) (pg : ProductPage)
    (h : pg.jsonLd = some none) :
    extractStructured url pg = (defaultRecord url, true) := by
  unfold extractStructured
  rw [h]

/-- With a parsed JSON-LD document the structured-data strategy runs
the try block on it. -/
theorem extractStructured_parsed (url : String) (pg : ProductPage) (jld : Json)
    (h : pg.jsonLd = some (some jld)) :
    extractStructured url pg = tryStructured (defaultRecord url) jld := by
  unfold extractStructured
  rw [h]

/-- When the graph scan finds a product entity without raising, the
try block runs the entity body on it. -/
theorem tryStructured_found (d : ProductRecord) (jld : Json)
    (ikvs : List (String × Json))
    (h : productItemOf jld = Except.ok (some ikvs)) :
    tryStructured d jld = processItem d ikvs := by
  unfold tryStructured
  rw [h]

/-- When a present aggregateRating value is a dictionary (or the key
is absent), the rating part assigns the rating fields and moves on to
the offers part. -/
theorem aggPart_dict (d1 : ProductRecord) (ikvs akvs : List (String × Json))
    (h : (List.lookup "aggregateRating" ikvs).getD (Json.obj []) = Json.obj akvs) :
    aggPart d1 ikvs =
      offersPart
        { d1 with
          rating := List.lookup "ratingValue" akvs
          review_count := List.lookup "reviewCount" akvs }
        ikvs := by
  unfold aggPart
  rw [h]

/-- When the offers value is a dictionary (or the key is absent), the
offers part assigns the price fields and moves on to the offer
list. -/
theorem offersPart_dict (d2 : ProductRecord) (ikvs okvs : List (String × Json))
    (h : (List.lookup "offers" ikvs).getD (Json.obj []) = Json.obj okvs) :
    offersPart d2 ikvs =
      offerListPart
        { d2 with
          lowest_price := (List.lookup "lowPrice" okvs).getD d2.lowest_price
          highest_price := (List.lookup "highPrice" okvs).getD d2.highest_price }
        okvs := by
  unfold offersPart
  rw [h]

/-- When the inner offers value is a list (or the key is absent), the
slice succeeds and the loop runs over its first 10 entries. -/
theorem offerListPart_list (d3 : ProductRecord) (okvs : List (String × Json))
    (ol : List Json)
    (h : (List.lookup "offers" okvs).getD (Json.arr []) = Json.arr ol) :
    offerListPart d3 okvs = offerLoop d3 (ol.take 10) := by
  unfold offerListPart
  rw [h]
  rfl

/-- C6 (amended): when the JSON-LD block parses, its graph scan finds
a product entity without raising, the aggregateRating and offers
values are dictionaries (or absent), the inner offer list is a list,
and none of its first 10 entries raises (that is, no entry holds a
present non-string availability, whose `.split` would raise and abort
the loop), then the extracted offers are exactly the kept offers of
the first 10 entries of the source list, in source order, and hence
number at most 10.  Per entry: a non-dictionary entry is skipped, an
entry with a falsy or missing price is dropped individually, and an
entry with a truthy price is kept regardless of whether it has a
seller name; the availability is the last slash-segment of the
availability string when present, else empty.  Outside these
hypotheses the caught raise keeps only the offers appended before
it. -/
theorem c6_offers_cap_order_filter (url : String) (pg : ProductPage)
    (jld : Json) (ikvs akvs okvs : List (String × Json)) (ol : List Json)
    (h1 : pg.jsonLd = some (some jld))
    (h2 : productItemOf jld = Except.ok (some ikvs))
    (h3 : (List.lookup "aggregateRating" ikvs).getD (Json.obj []) = Json.obj akvs)
    (h4 : (List.lookup "offers" ikvs).getD (Json.obj []) = Json.obj okvs)
    (h5 : (List.lookup "offers" okvs).getD (Json.arr []) = Json.arr ol)
    (h6 : (ol.take 10).all offerNoRaise = true) :
    (extractProduct url pg).store_prices = (ol.take 10).filterMap offerKept
    ∧ (extractProduct url pg).store_prices.length ≤ 10 := by
  have hsp : (extractProduct url pg).store_prices
      = (ol.take 10).filterMap offerKept := by
    unfold extractProduct
    rw [(applyFallback_currency_store pg _).2]
    rw [extractStructured_parsed url pg jld h1]
    rw [tryStructured_found _ jld ikvs h2]
    unfold processItem
    rw [aggPart_dict _ ikvs akvs h3]
    rw [offersPart_dict _ ikvs okvs h4]
    rw [offerListPart_list _ okvs ol h5]
    rw [offerLoop_clean_store _ _ h6]
    rfl
  constructor
  · exact hsp
  · rw [hsp]
    exact le_trans (List.length_filterMap_le _ _) (List.length_take_le 10 ol)

/-- The two offer entries of the structured-data example of the
specification. -/
def twoShopsOffers : List Json :=
  [Json.obj [("seller", Json.obj [("name", Json.str "ShopA")]),
             ("price", Json.str "199")],
   Json.obj [("seller", Json.obj [("name", Json.str "ShopB")]),
             ("price", Json.str "210")]]

/-- The structured-data example page of the specification: two offers
with sellers ShopA and ShopB and prices 199 and 210. -/
def twoShopsPage : ProductPage :=
  { jsonLd := some (some (Json.obj [("@graph", Json.arr [
      Json.obj [("@type", Json.str "Product"),
        ("name", Json.str "Phone X"),
        ("offers", Json.obj [
          ("lowPrice", Json.str "199"),
          ("highPrice", Json.str "210"),
          ("offers", Json.arr twoShopsOffers)])]])]))
    h1 := none }

/-- C6 witness: the amended statement applied to the two-offer example
page, whose entries all satisfy the no-raise hypotheses. -/
theorem c6_offers_witness :
    (extractProduct "u" twoShopsPage).store_prices
      = (twoShopsOffers.take 10).filterMap offerKept
    ∧ (extractProduct "u" twoShopsPage).store_prices.length ≤ 10 :=
  c6_offers_cap_order_filter "u" twoShopsPage _ _ _ _ _ rfl rfl rfl rfl rfl rfl

/-- C7: on a product page with no JSON-LD block the record carries the
text of the first first-level heading as title when one exists, the
fixed string "Unknown" otherwise, and every other field keeps its
documented default: brand "Unknown", prices "N/A", currency "CZK",
absent rating and review count, empty offers. -/
theorem c7_dom_fallback_defaults (url : String) (pg : ProductPage)
    (h : pg.jsonLd = none) :
    extractProduct url pg =
      { url := url
        title := (match pg.h1 with
                  | some t => Json.str t
                  | none => Json.str "Unknown")
        brand := Json.str "Unknown"
        rating := none
        review_count := none
        lowest_price := Json.str "N/A"
        highest_price := Json.str "N/A"
        currency := "CZK"
        store_prices := [] } := by
  unfold extractProduct
  rw [extractStructured_no_tag url pg h]
  cases hh : pg.h1 <;>
    simp [applyFallback, defaultRecord, isUnknownTitle, hh]

/-- A product page with no JSON-LD block and a first-level heading. -/
def headingOnlyPage : ProductPage :=
  { jsonLd := none, h1 := some "Wireless Mouse X1" }

/-- C7 witness: the fallback record of a page whose only source is the
heading "Wireless Mouse X1". -/
theorem c7_dom_fallback_witness :
    extractProduct "https://www.heureka.cz/p/" headingOnlyPage =
      { url := "https://www.heureka.cz/p/"
        title := Json.str "Wireless Mouse X1"
        brand := Json.str "Unknown"
        rating := none
        review_count := none
        lowest_price := Json.str "N/A"
        highest_price := Json.str "N/A"
        currency := "CZK"
        store_prices := [] } :=
  c7_dom_fallback_defaults "https://www.heureka.cz/p/" headingOnlyPage rfl

/-- C8: a JSON-LD block that fails to parse is not fatal.  When the
page has a script tag whose contents `json.loads` rejects and the
admission check passes, the product handler still pushes exactly one
record, built by the DOM fallback over the defaults, logs the parse
warning, and increments the counter. -/
theorem c8_parse_failure_not_fatal (maxP count : Nat) (url : String)
    (pg : ProductPage)
    (hf : pg.jsonLd = some none) (hadm : limitReached maxP count = false) :
    handleProduct maxP count url pg =
      (count + 1,
        { pushed := [applyFallback pg (defaultRecord url)]
          enqueued := []
          logs := ["Scraping Product: " ++ url, "Failed to parse JSON-LD",
                   "Products fetched"] }) := by
  unfold handleProduct
  rw [if_neg (by simp [hadm])]
  unfold extractProduct
  rw [extractStructured_parse_failed url pg hf]
  rfl

/-- A product page whose JSON-LD script tag holds text that fails to
parse, with a first-level heading as fallback source. -/
def badJsonPage : ProductPage :=
  { jsonLd := some none, h1 := some "Gadget Z" }

/-- C8 witness: on a page with an unparsable JSON-LD block, the
handler pushes the fallback record and logs the warning. -/
theorem c8_parse_failure_witness :
    handleProduct 5 0 "https://www.heureka.cz/g/" badJsonPage =
      (1,
        { pushed := [applyFallback badJsonPage (defaultRecord "https://www.heureka.cz/g/")]
          enqueued := []
          logs := ["Scraping Product: " ++ "https://www.heureka.cz/g/",
                   "Failed to parse JSON-LD", "Products fetched"] }) :=
  c8_parse_failure_not_fatal 5 0 "https://www.heureka.cz/g/" badJsonPage rfl rfl

/-- C9: on a fetched page whose title contains a challenge marker
(case-sensitive), a handler invocation that passed page admission
aborts: the counter is unchanged, nothing is pushed, nothing is
enqueued, and the block is logged. -/
theorem c9_blocked_page_aborts (maxP count : Nat) (req : CrawlRequest)
    (pg : FetchedPage)
    (hadm : limitReached maxP count = false)
    (hblock : (strContains pg.title "Just a moment"
               || strContains pg.title "Access denied") = true) :
    requestHandler maxP count req pg =
      (count,
        { pushed := []
          enqueued := []
          logs := ["Processing " ++ req.url, "Blocked by Cloudflare: " ++ req.url] }) := by
  unfold requestHandler
  rw [if_neg (by simp [hadm]), if_pos hblock]

/-- A fetched page whose title is the Cloudflare challenge title. -/
def blockedPage : FetchedPage :=
  { title := "Just a moment..."
    hasPriceBlock := true
    hasOfferList := true
    productLinks := ["https://www.heureka.cz/p/"]
    nextHref := some "https://www.heureka.cz/c/?p=2"
    product := { jsonLd := none, h1 := some "x" } }

/-- C9 witness: the handler aborts on the title "Just a moment..."
with no effects beyond the log lines. -/
theorem c9_blocked_page_witness :
    requestHandler 5 0 { url := "https://www.heureka.cz/c/", userLabel := none } blockedPage =
      (0,
        { pushed := []
          enqueued := []
          logs := ["Processing " ++ "https://www.heureka.cz/c/",
                   "Blocked by Cloudflare: " ++ "https://www.heureka.cz/c/"] }) :=
  c9_blocked_page_aborts 5 0 { url := "https://www.heureka.cz/c/", userLabel := none }
    blockedPage rfl (by decide)

/-- C10: every extracted record carries the fixed currency "CZK", and
so does every store offer it contains, for every input page; the
currency never comes from the page. -/
theorem c10_currency_always_czk (url : String) (pg : ProductPage) :
    (extractProduct url pg).currency = "CZK"
    ∧ ((extractProduct url pg).store_prices.all (fun o => o.currency == "CZK")) = true := by
  have hcs := applyFallback_currency_store pg (extractStructured url pg).1
  constructor
  · unfold extractProduct
    rw [hcs.1]
    exact extractStructured_currency url pg
  · rw [List.all_eq_true]
    intro o ho
    rw [beq_iff_eq]
    unfold extractProduct at ho
    rw [hcs.2] at ho
    exact extractStructured_store url pg o ho

/-- C1: with maxProducts = 1 and two concurrent product-handler
invocations, the schedule that interleaves both invocations segment by
segment (both pass the line-79 check, both pass the line-189 check and
push, then both increment) drives the shared counter to 2, strictly
above the limit: the invariant that the counter stays at or below
maxProducts fails on the source, whose check and increment are
separate atomic segments with awaits in between. -/
theorem c1_counter_overshoot :
    (runSchedule 1 (initRun 2) [0, 1, 0, 1, 0, 1]).count = 2
    ∧ 1 < (runSchedule 1 (initRun 2) [0, 1, 0, 1, 0, 1]).count := by
  exact ⟨rfl, by decide⟩

/-- C2: with maxProducts = 1 and three concurrent product-handler
invocations, the round-robin schedule lets every invocation pass both
admission checks before any increment lands, so all three push a
record and increment: 3 successes instead of the exactly 1 the
atomicity claim demands.  The admission check and the increment are
not one atomic operation in the source. -/
theorem c2_admission_not_atomic :
    (runSchedule 1 (initRun 3) [0, 1, 2, 0, 1, 2, 0, 1, 2]).emitted = 3
    ∧ (runSchedule 1 (initRun 3) [0, 1, 2, 0, 1, 2, 0, 1, 2]).count = 3 := by
  exact ⟨rfl, rfl⟩

/-- Under a schedule that runs each product handler to completion
before the next starts, the counter does respect the limit: the
overshoot above is a pure interleaving effect. -/
theorem sequential_schedule_respects_limit :
    (runSchedule 1 (initRun 3) [0, 0, 0, 1, 1, 1, 2, 2, 2]).count = 1
    ∧ (runSchedule 1 (initRun 3) [0, 0, 0, 1, 1, 1, 2, 2, 2]).emitted = 1 := by
  exact ⟨rfl, rfl⟩
